import Mathlib

/-!
Shallow embedding of the CHIP-8 interpreter in `src/main.rs` of
shawngiroux/rusty-chip8, together with proofs about its instruction
semantics.

Modelling conventions:
* `u8` / `u16` / `u32` machine values are represented as `Nat`; every
  assignment whose Rust counterpart wraps (additions, shifts, `as u8` /
  `as u16` casts, `wrapping` u8 decrement of the stack pointer) takes an
  explicit `% 256` or `% 65536`.
* Rust slice indexing panics when the index is out of bounds; array reads
  and writes are therefore modelled with `readArr` / `writeArr`, which
  return `Except ExecError`.  The register file `V : [u8; 16]` is only ever
  indexed with a nibble (`< 16`), so its accesses are modelled with the
  total `List.getD` / `List.set`.
* `process::exit(0x0100)` on undetermined opcodes is the error `procExit`.
* The `FX0A` handler contains `while self.k == 0xff { println!(...) }`
  whose body never modifies `k`; when `k = 0xff` that loop never
  terminates, which is modelled by the error value `hang`.
* The random draw of `CXNN` (`rng.gen_range(0, 255)`, a value in 0..=254)
  is supplied from outside as the `rnd` argument, reduced `% 255`.
* `CPU::initialize` (as `initCPU`) reads a file; the model receives the file's bytes as
  the `buffer` argument.
-/

namespace RustyChip8

/-- Fatal outcomes of one interpreter step. -/
inductive ExecError where
  /-- A Rust index-out-of-bounds panic on a slice access. -/
  | oob
  /-- `process::exit(0x0100)` reached on an undetermined opcode. -/
  | procExit
  /-- The `FX0A` busy-wait loop never terminates when `k = 0xff`. -/
  | hang
deriving DecidableEq

/-- The interpreter state, mirroring `struct CPU` in `src/main.rs`. -/
structure CPU where
  opcode : Nat
  memory : List Nat
  height : Nat
  width : Nat
  gfx : List Nat
  V : List Nat
  I : Nat
  pc : Nat
  k : Nat
  stack : List Nat
  sp : Nat
  delay_timer : Nat
  sound_timer : Nat
deriving DecidableEq

deriving instance DecidableEq for Except

/-- Checked array read: Rust slice indexing panics out of bounds. -/
def readArr (l : List Nat) (i : Nat) : Except ExecError Nat :=
  match l.get? i with
  | some v => .ok v
  | none => .error .oob

/-- Checked array write: Rust slice indexing panics out of bounds. -/
def writeArr (l : List Nat) (i : Nat) (v : Nat) : Except ExecError (List Nat) :=
  match l.get? i with
  | some _ => .ok (l.set i v)
  | none => .error .oob

/-- The built-in font table (`chip8_fontset` in `CPU::initialize` (as `initCPU`)). -/
def chip8_fontset : List Nat :=
  [0xF0, 0x90, 0x90, 0x90, 0xF0,
   0x20, 0x60, 0x20, 0x20, 0x70,
   0xF0, 0x10, 0xF0, 0x80, 0xF0,
   0xF0, 0x10, 0xF0, 0x10, 0xF0,
   0x90, 0x90, 0xF0, 0x10, 0x10,
   0xF0, 0x80, 0xF0, 0x10, 0xF0,
   0xF0, 0x80, 0xF0, 0x90, 0xF0,
   0xF0, 0x10, 0x20, 0x40, 0x40,
   0xF0, 0x90, 0xF0, 0x90, 0xF0,
   0xF0, 0x90, 0xF0, 0x10, 0xF0,
   0xF0, 0x90, 0xF0, 0x90, 0x90,
   0xE0, 0x90, 0xE0, 0x90, 0xE0,
   0xF0, 0x80, 0x80, 0x80, 0xF0,
   0xE0, 0x90, 0x90, 0x90, 0xE0,
   0xF0, 0x80, 0xF0, 0x80, 0xF0,
   0xF0, 0x80, 0xF0, 0x80, 0x80]

/-- `CPU::initialize` (as `initCPU`): zeroed memory, program bytes copied in at 0x200,
font table copied in at 0x50, PC set to 0x200.  The game file's bytes are
passed as `buffer`. -/
def initCPU (buffer : List Nat) (gfx : List Nat) : CPU :=
  let memory0 : List Nat := List.replicate 4096 0
  let memory1 := (List.range buffer.length).foldl
      (fun m i => m.set (i + 512) (buffer.getD i 0)) memory0
  let start_loc := 0x50
  let memory2 := (List.range chip8_fontset.length).foldl
      (fun m index => m.set (start_loc + index) (chip8_fontset.getD index 0)) memory1
  { opcode := 0
    memory := memory2
    height := 32
    width := 64
    gfx := gfx
    V := List.replicate 16 0
    I := 0
    pc := 0x200
    stack := List.replicate 16 0
    sp := 0
    k := 0
    delay_timer := 0
    sound_timer := 0 }

/-- The `FX55` loop: `for x in 0..VX+1 { memory[(I + x)] = V[x] }`,
iterated over the index list `xs`. -/
def storeV (V : List Nat) (Ireg : Nat) : List Nat → List Nat → Except ExecError (List Nat)
  | mem, [] => .ok mem
  | mem, x :: rest =>
    match writeArr mem ((Ireg + x) % 65536) (V.getD x 0) with
    | .error e => .error e
    | .ok mem2 => storeV V Ireg mem2 rest

/-- The `FX65` loop: `for x in 0..VX+1 { V[x] = memory[(I + x)] as u8 }`. -/
def loadV (mem : List Nat) (Ireg : Nat) : List Nat → List Nat → Except ExecError (List Nat)
  | V, [] => .ok V
  | V, x :: rest =>
    match readArr mem ((Ireg + x) % 65536) with
    | .error e => .error e
    | .ok v => loadV mem Ireg (V.set x (v % 256)) rest

/-- The inner `DXYN` loop over the 8 bits of one sprite row: for each `j`
with bit `0x80 >> j` set in `pixel`, XOR the graphics cell at
`x + j + rowOff` (where `rowOff = (y + i) * 64`), recording a collision. -/
def drawRowBits (pixel x rowOff : Nat) :
    List Nat → Nat → List Nat → Except ExecError (List Nat × Nat)
  | gfx, vf, [] => .ok (gfx, vf)
  | gfx, vf, j :: rest =>
    if pixel &&& (0x80 >>> j) ≠ 0 then
      let loc := (x + j + rowOff) % 65536
      match readArr gfx loc with
      | .error e => .error e
      | .ok p =>
        let vf2 := if p = 1 then 1 else vf
        match writeArr gfx loc (p ^^^ 1) with
        | .error e => .error e
        | .ok gfx2 => drawRowBits pixel x rowOff gfx2 vf2 rest
    else
      drawRowBits pixel x rowOff gfx vf rest

/-- The outer `DXYN` loop over the `n` sprite rows, reading the row byte
from `memory[I + i]`. -/
def drawRows (mem : List Nat) (Ireg x y : Nat) :
    List Nat → List Nat → Nat → Except ExecError (List Nat × Nat)
  | [], gfx, vf => .ok (gfx, vf)
  | i :: rest, gfx, vf =>
    match readArr mem ((Ireg + i) % 65536) with
    | .error e => .error e
    | .ok pixel =>
      match drawRowBits pixel x ((y + i) * 64 % 65536) gfx vf (List.range 8) with
      | .error e => .error e
      | .ok (gfx2, vf2) => drawRows mem Ireg x y rest gfx2 vf2

/-- The dispatch of `CPU::emulate_cycle` on an already-fetched opcode
(`self.opcode`), transcribed branch by branch from the Rust `match`. -/
def execute (rnd : Nat) (s : CPU) : Except ExecError CPU :=
  if s.opcode &&& 0xF000 = 0x0000 then
    if s.opcode &&& 0x00FF = 0x00E0 then
      -- 00E0: clears the screen
      .ok { s with gfx := s.gfx.map (fun _ => 0), pc := (s.pc + 2) % 65536 }
    else if s.opcode &&& 0x00FF = 0x00EE then
      -- 00EE: returns from a subroutine; `self.sp -= 1` is a u8
      -- subtraction, wrapping to 255 when sp = 0
      match readArr s.stack ((s.sp + 255) % 256) with
      | .error e => .error e
      | .ok ret => .ok { s with sp := (s.sp + 255) % 256, pc := (ret + 2) % 65536 }
    else
      -- 0NNN: jump to machine code routine, unimplemented
      .error .procExit
  else if s.opcode &&& 0xF000 = 0x1000 then
    -- 1NNN: jumps to address NNN
    .ok { s with pc := s.opcode &&& 0x0FFF }
  else if s.opcode &&& 0xF000 = 0x2000 then
    -- 2NNN: calls subroutine at NNN: push the current pc, jump to NNN
    match writeArr s.stack s.sp s.pc with
    | .error e => .error e
    | .ok stack2 =>
      .ok { s with stack := stack2, sp := (s.sp + 1) % 256, pc := s.opcode &&& 0x0FFF }
  else if s.opcode &&& 0xF000 = 0x3000 then
    -- 3XNN: skip next instruction if VX equals NN
    if s.V.getD ((s.opcode &&& 0x0F00) >>> 8) 0 = (s.opcode &&& 0x00FF) % 256 then
      .ok { s with pc := (s.pc + 4) % 65536 }
    else
      .ok { s with pc := (s.pc + 2) % 65536 }
  else if s.opcode &&& 0xF000 = 0x4000 then
    -- 4XNN: skip next instruction if VX does not equal NN
    if s.V.getD ((s.opcode &&& 0x0F00) >>> 8) 0 ≠ (s.opcode &&& 0x00FF) % 256 then
      .ok { s with pc := (s.pc + 4) % 65536 }
    else
      .ok { s with pc := (s.pc + 2) % 65536 }
  else if s.opcode &&& 0xF000 = 0x6000 then
    -- 6XNN: sets VX to NN
    .ok { s with V := s.V.set ((s.opcode &&& 0x0F00) >>> 8) ((s.opcode &&& 0x00FF) % 256),
                 pc := (s.pc + 2) % 65536 }
  else if s.opcode &&& 0xF000 = 0x7000 then
    -- 7XNN: adds NN to VX
    .ok { s with V := s.V.set ((s.opcode &&& 0x0F00) >>> 8)
                   ((s.V.getD ((s.opcode &&& 0x0F00) >>> 8) 0 + (s.opcode &&& 0x00FF)) % 256),
                 pc := (s.pc + 2) % 65536 }
  else if s.opcode &&& 0xF000 = 0x8000 then
    if s.opcode &&& 0x000F = 0x0000 then
      -- 8XY0: sets VX to value of VY
      .ok { s with V := s.V.set ((s.opcode &&& 0x0F00) >>> 8)
                     (s.V.getD ((s.opcode &&& 0x00F0) >>> 4) 0),
                   pc := (s.pc + 2) % 65536 }
    else if s.opcode &&& 0x000F = 0x0001 then
      -- 8XY1: the source computes `(VX | VY) as u8` on the nibble
      -- indices themselves, not on the register values
      .ok { s with V := s.V.set ((s.opcode &&& 0x0F00) >>> 8)
                     ((((s.opcode &&& 0x0F00) >>> 8) ||| ((s.opcode &&& 0x00F0) >>> 4)) % 256),
                   pc := (s.pc + 2) % 65536 }
    else if s.opcode &&& 0x000F = 0x0002 then
      -- 8XY2: sets VX to VX and VY
      .ok { s with V := s.V.set ((s.opcode &&& 0x0F00) >>> 8)
                     ((s.V.getD ((s.opcode &&& 0x0F00) >>> 8) 0 &&&
                       s.V.getD ((s.opcode &&& 0x00F0) >>> 4) 0) % 256),
                   pc := (s.pc + 2) % 65536 }
    else if s.opcode &&& 0x000F = 0x0003 then
      -- 8XY3: the source computes `(VX ^ VY) as u8` on the nibble indices
      .ok { s with V := s.V.set ((s.opcode &&& 0x0F00) >>> 8)
                     ((((s.opcode &&& 0x0F00) >>> 8) ^^^ ((s.opcode &&& 0x00F0) >>> 4)) % 256),
                   pc := (s.pc + 2) % 65536 }
    else if s.opcode &&& 0x000F = 0x0004 then
      -- 8XY4: adds VY to VX; VF is the carry, written before VX
      .ok { s with V := (s.V.set 0xf
                     (if 255 < s.V.getD ((s.opcode &&& 0x0F00) >>> 8) 0 +
                        s.V.getD ((s.opcode &&& 0x00F0) >>> 4) 0 then 1 else 0)).set
                     ((s.opcode &&& 0x0F00) >>> 8)
                     ((s.V.getD ((s.opcode &&& 0x0F00) >>> 8) 0 +
                       s.V.getD ((s.opcode &&& 0x00F0) >>> 4) 0) % 256),
                   pc := (s.pc + 2) % 65536 }
    else if s.opcode &&& 0x000F = 0x0005 then
      -- 8XY5: VY is subtracted from VX; VF is the not-borrow, written
      -- before VX; the i16 difference is cast back to u8
      .ok { s with V := (s.V.set 0xf
                     (if ((s.V.getD ((s.opcode &&& 0x0F00) >>> 8) 0 : Int) -
                        (s.V.getD ((s.opcode &&& 0x00F0) >>> 4) 0 : Int)) < 0 then 0 else 1)).set
                     ((s.opcode &&& 0x0F00) >>> 8)
                     (((s.V.getD ((s.opcode &&& 0x0F00) >>> 8) 0 : Int) -
                       (s.V.getD ((s.opcode &&& 0x00F0) >>> 4) 0 : Int)) % 256).toNat,
                   pc := (s.pc + 2) % 65536 }
    else if s.opcode &&& 0x000F = 0x0006 then
      -- 8XY6: the source executes `self.V[VX] = self.V[VY] << 1` and
      -- leaves VF untouched (the VF update is only a println placeholder)
      .ok { s with V := s.V.set ((s.opcode &&& 0x0F00) >>> 8)
                     ((s.V.getD ((s.opcode &&& 0x00F0) >>> 4) 0 <<< 1) % 256),
                   pc := (s.pc + 2) % 65536 }
    else if s.opcode &&& 0x000F = 0x0007 then
      -- 8XY7: unimplemented, exits
      .error .procExit
    else
      -- 8XYN undetermined opcode (including 8XYE)
      .error .procExit
  else if s.opcode &&& 0xF000 = 0x9000 then
    -- 9XY0: skips the next instruction if VX does not equal VY
    if s.V.getD ((s.opcode &&& 0x0F00) >>> 8) 0 ≠ s.V.getD ((s.opcode &&& 0x00F0) >>> 4) 0 then
      .ok { s with pc := (s.pc + 4) % 65536 }
    else
      .ok { s with pc := (s.pc + 2) % 65536 }
  else if s.opcode &&& 0xF000 = 0xA000 then
    -- ANNN: set I to address NNN
    .ok { s with I := s.opcode &&& 0x0FFF, pc := (s.pc + 2) % 65536 }
  else if s.opcode &&& 0xF000 = 0xC000 then
    -- CXNN: VX := random AND NN; the generator draw comes in as rnd and
    -- is reduced to the gen_range(0, 255) interval 0..=254
    .ok { s with V := s.V.set ((s.opcode &&& 0x0F00) >>> 8)
                   (((rnd % 255) &&& (s.opcode &&& 0x00FF)) % 256),
                 pc := (s.pc + 2) % 65536 }
  else if s.opcode &&& 0xF000 = 0xD000 then
    -- DXYN: draw at (VX, VY) with height N; VF is cleared first and set
    -- to 1 on collision inside the row loops
    match drawRows s.memory s.I (s.V.getD ((s.opcode &&& 0x0F00) >>> 8) 0)
        (s.V.getD ((s.opcode &&& 0x00F0) >>> 4) 0)
        (List.range (s.opcode &&& 0x000F)) s.gfx 0 with
    | .error e => .error e
    | .ok (gfx2, vf) =>
      .ok { s with V := (s.V.set 0xF 0).set 0xF vf, gfx := gfx2, pc := (s.pc + 2) % 65536 }
  else if s.opcode &&& 0xF000 = 0xE000 then
    if s.opcode &&& 0x00FF = 0x009e then
      -- EX9E: the source compares the nibble `VX as u8` with the key
      -- latch, not the register value
      if ((s.opcode &&& 0x0F00) >>> 8) % 256 = s.k then
        .ok { s with pc := (s.pc + 4) % 65536 }
      else
        .ok { s with pc := (s.pc + 2) % 65536 }
    else if s.opcode &&& 0x00FF = 0x00a1 then
      -- EXA1: likewise compares the nibble with the key latch
      if ((s.opcode &&& 0x0F00) >>> 8) % 256 ≠ s.k then
        .ok { s with pc := (s.pc + 4) % 65536 }
      else
        .ok { s with pc := (s.pc + 2) % 65536 }
    else
      .error .procExit
  else if s.opcode &&& 0xF000 = 0xF000 then
    if s.opcode &&& 0x00FF = 0x000A then
      -- FX0A: `while self.k == 0xff` has a body that never changes k, so
      -- when k = 0xff the loop spins forever
      if s.k = 0xff then
        .error .hang
      else
        .ok { s with V := s.V.set ((s.opcode &&& 0x0F00) >>> 8) s.k, pc := (s.pc + 2) % 65536 }
    else if s.opcode &&& 0x00FF = 0x001e then
      -- FX1E: adds VX to I
      .ok { s with I := (s.I + s.V.getD ((s.opcode &&& 0x0F00) >>> 8) 0) % 65536,
                   pc := (s.pc + 2) % 65536 }
    else if s.opcode &&& 0x00FF = 0x0007 then
      -- FX07: store the delay timer in VX
      .ok { s with V := s.V.set ((s.opcode &&& 0x0F00) >>> 8) s.delay_timer,
                   pc := (s.pc + 2) % 65536 }
    else if s.opcode &&& 0x00FF = 0x0015 then
      -- FX15: set the delay timer to VX
      .ok { s with delay_timer := s.V.getD ((s.opcode &&& 0x0F00) >>> 8) 0,
                   pc := (s.pc + 2) % 65536 }
    else if s.opcode &&& 0x00FF = 0x0018 then
      -- FX18: set the sound timer to VX
      .ok { s with sound_timer := s.V.getD ((s.opcode &&& 0x0F00) >>> 8) 0,
                   pc := (s.pc + 2) % 65536 }
    else if s.opcode &&& 0x00FF = 0x0029 then
      -- FX29: the source sets `I = 0x50 + V[VX]`, with no 5-byte scaling
      .ok { s with I := (0x50 + s.V.getD ((s.opcode &&& 0x0F00) >>> 8) 0) % 65536,
                   pc := (s.pc + 2) % 65536 }
    else if s.opcode &&& 0x00FF = 0x0033 then
      -- FX33: binary-coded decimal of VX into memory[I..I+2]
      match writeArr s.memory s.I (s.V.getD ((s.opcode &&& 0x0F00) >>> 8) 0 / 100) with
      | .error e => .error e
      | .ok m1 =>
        match writeArr m1 ((s.I + 1) % 65536)
            (s.V.getD ((s.opcode &&& 0x0F00) >>> 8) 0 / 10 % 10) with
        | .error e => .error e
        | .ok m2 =>
          match writeArr m2 ((s.I + 2) % 65536)
              (s.V.getD ((s.opcode &&& 0x0F00) >>> 8) 0 % 100 % 10) with
          | .error e => .error e
          | .ok m3 => .ok { s with memory := m3, pc := (s.pc + 2) % 65536 }
    else if s.opcode &&& 0x00FF = 0x0055 then
      -- FX55: stores V0..VX into memory starting at I
      match storeV s.V s.I s.memory (List.range (((s.opcode &&& 0x0F00) >>> 8) + 1)) with
      | .error e => .error e
      | .ok mem2 => .ok { s with memory := mem2, pc := (s.pc + 2) % 65536 }
    else if s.opcode &&& 0x00FF = 0x0065 then
      -- FX65: fills V0..VX from memory starting at I
      match loadV s.memory s.I s.V (List.range (((s.opcode &&& 0x0F00) >>> 8) + 1)) with
      | .error e => .error e
      | .ok V2 => .ok { s with V := V2, pc := (s.pc + 2) % 65536 }
    else
      .error .procExit
  else
    -- no 0x5000 and no 0xB000 arm exists in the source: both fall
    -- through to the final undetermined-opcode exit
    .error .procExit

/-- `CPU::emulate_cycle`: fetch the two instruction bytes at `pc` and
`pc + 1`, concatenate them big-endian into `self.opcode`, and dispatch. -/
def emulate_cycle (rnd : Nat) (s : CPU) : Except ExecError CPU :=
  match readArr s.memory s.pc, readArr s.memory ((s.pc + 1) % 65536) with
  | .error e, _ => .error e
  | .ok _, .error e => .error e
  | .ok m1, .ok m2 => execute rnd { s with opcode := (m1 <<< 8) % 65536 ||| m2 }

/-- Iterated interpreter steps. -/
def iterate (rnd : Nat) (s : CPU) : Nat → Except ExecError CPU
  | 0 => .ok s
  | n + 1 =>
    match iterate rnd s n with
    | .error e => .error e
    | .ok s2 => emulate_cycle rnd s2

/-- A convenient small machine state used to instantiate theorems: empty
graphics buffer, zeroed registers, full-capacity empty stack, program
counter 0 and the no-key sentinel latched. -/
def baseCPU : CPU :=
  { opcode := 0
    memory := []
    height := 32
    width := 64
    gfx := []
    V := List.replicate 16 0
    I := 0
    pc := 0
    k := 0xff
    stack := List.replicate 16 0
    sp := 0
    delay_timer := 0
    sound_timer := 0 }


/-! ### Helper lemmas -/

theorem readArr_ok {l : List Nat} {i v : Nat} (h : readArr l i = .ok v) :
    i < l.length ∧ v = l.getD i 0 := by
  unfold readArr at h
  cases hq : l.get? i with
  | none => rw [hq] at h; exact Except.noConfusion h
  | some w =>
    rw [hq] at h
    injection h with h
    subst h
    obtain ⟨hlt, _⟩ := List.get?_eq_some.mp hq
    refine ⟨hlt, ?_⟩
    rw [List.getD_eq_get?, hq]
    rfl

theorem readArr_of_lt {l : List Nat} {i : Nat} (h : i < l.length) :
    readArr l i = .ok (l.getD i 0) := by
  unfold readArr
  rw [List.getD_eq_get?, List.get?_eq_get h]
  rfl

theorem writeArr_ok {l l2 : List Nat} {i v : Nat} (h : writeArr l i v = .ok l2) :
    i < l.length ∧ l2 = l.set i v := by
  unfold writeArr at h
  cases hq : l.get? i with
  | none => rw [hq] at h; exact Except.noConfusion h
  | some w =>
    rw [hq] at h
    injection h with h
    subst h
    obtain ⟨hlt, _⟩ := List.get?_eq_some.mp hq
    exact ⟨hlt, rfl⟩

theorem writeArr_of_lt {l : List Nat} {i : Nat} (v : Nat) (h : i < l.length) :
    writeArr l i v = .ok (l.set i v) := by
  unfold writeArr
  rw [List.get?_eq_get h]

theorem getD_lt (l : List Nat) (i : Nat) (h : ∀ x ∈ l, x < 256) : l.getD i 0 < 256 := by
  induction l generalizing i with
  | nil => simp [List.getD_nil]
  | cons a t ih =>
    cases i with
    | zero => simpa using h a (by simp)
    | succ n =>
      rw [List.getD_cons_succ]
      exact ih n (fun x hx => h x (by simp [hx]))

theorem mem_set_lt {l : List Nat} (i v : Nat) (hl : ∀ x ∈ l, x < 256) (hv : v < 256) :
    ∀ x ∈ l.set i v, x < 256 := by
  intro x hx
  rcases List.mem_or_eq_of_mem_set hx with h | h
  · exact hl x h
  · omega

theorem getD_set_self (l : List Nat) (n v : Nat) (h : n < l.length) :
    (l.set n v).getD n 0 = v := by
  induction l generalizing n with
  | nil => simp at h
  | cons a t ih =>
    cases n with
    | zero => simp
    | succ m =>
      rw [List.set_cons_succ, List.getD_cons_succ]
      exact ih m (by simpa using h)

theorem storeV_lt (V : List Nat) (Ireg : Nat) (xs : List Nat) :
    ∀ mem mem2, storeV V Ireg mem xs = .ok mem2 →
      (∀ x ∈ mem, x < 256) → (∀ v ∈ V, v < 256) → ∀ x ∈ mem2, x < 256 := by
  induction xs with
  | nil =>
    intro mem mem2 h hm _
    unfold storeV at h
    injection h with h
    exact h ▸ hm
  | cons a rest ih =>
    intro mem mem2 h hm hV
    unfold storeV at h
    split at h
    · exact Except.noConfusion h
    · next mem1 heq =>
      have hw := writeArr_ok heq
      exact ih mem1 mem2 h
        (hw.2 ▸ mem_set_lt _ _ hm (getD_lt V a hV)) hV

theorem foldl_set_lt (p v : Nat → Nat) (idxs : List Nat) :
    ∀ mem : List Nat, (∀ x ∈ mem, x < 256) → (∀ i ∈ idxs, v i < 256) →
      ∀ x ∈ idxs.foldl (fun m i => m.set (p i) (v i)) mem, x < 256 := by
  induction idxs with
  | nil =>
    intro mem hm _
    simpa using hm
  | cons a rest ih =>
    intro mem hm hv
    rw [List.foldl_cons]
    exact ih _ (mem_set_lt _ _ hm (hv a (by simp))) (fun i hi => hv i (by simp [hi]))

theorem initCPU_mem_lt (buffer gfx : List Nat) (hb : ∀ b ∈ buffer, b < 256) :
    ∀ x ∈ (initCPU buffer gfx).memory, x < 256 := by
  unfold initCPU
  simp only []
  refine foldl_set_lt (fun index => 0x50 + index) (fun index => chip8_fontset.getD index 0) _ _
      (foldl_set_lt (fun i => i + 512) (fun i => buffer.getD i 0) _ _ ?_ ?_) ?_
  · intro x hx
    have := List.eq_of_mem_replicate hx
    omega
  · exact fun i _ => getD_lt buffer i hb
  · exact fun i _ => getD_lt chip8_fontset i (by decide)


theorem writeArr_lt {mem mem2 : List Nat} {i v : Nat} (h : writeArr mem i v = .ok mem2)
    (hm : ∀ x ∈ mem, x < 256) (hv : v < 256) : ∀ x ∈ mem2, x < 256 :=
  (writeArr_ok h).2 ▸ mem_set_lt _ _ hm hv

/-- One dispatch step keeps every memory cell below 256 (given the
byte-range facts that the Rust types provide: `V : [u8; 16]`) and keeps
the stack pointer at most 16 (given a 16-entry stack). -/
theorem execute_inv (rnd : Nat) (s s2 : CPU) (h : execute rnd s = .ok s2) :
    ((∀ x ∈ s.memory, x < 256) → (∀ v ∈ s.V, v < 256) → ∀ x ∈ s2.memory, x < 256) ∧
    (s.stack.length = 16 → s.sp ≤ 16 → s2.sp ≤ 16) := by
  unfold execute at h
  by_cases c0 : s.opcode &&& 0xF000 = 0x0000
  · rw [if_pos c0] at h
    by_cases cE0 : s.opcode &&& 0x00FF = 0x00E0
    · rw [if_pos cE0] at h
      injection h with h; subst h
      exact ⟨fun hm _ => hm, fun _ hsp => hsp⟩
    rw [if_neg cE0] at h
    by_cases cEE : s.opcode &&& 0x00FF = 0x00EE
    · rw [if_pos cEE] at h
      split at h
      · exact Except.noConfusion h
      · rename_i ret heq
        injection h with h; subst h
        have hr := (readArr_ok heq).1
        refine ⟨fun hm _ => hm, fun hlen _ => ?_⟩
        show (s.sp + 255) % 256 ≤ 16
        omega
    rw [if_neg cEE] at h
    exact Except.noConfusion h
  rw [if_neg c0] at h
  by_cases c1 : s.opcode &&& 0xF000 = 0x1000
  · rw [if_pos c1] at h
    injection h with h; subst h
    exact ⟨fun hm _ => hm, fun _ hsp => hsp⟩
  rw [if_neg c1] at h
  by_cases c2 : s.opcode &&& 0xF000 = 0x2000
  · rw [if_pos c2] at h
    split at h
    · exact Except.noConfusion h
    · rename_i stack2 heq
      injection h with h; subst h
      have hw := (writeArr_ok heq).1
      refine ⟨fun hm _ => hm, fun hlen _ => ?_⟩
      show (s.sp + 1) % 256 ≤ 16
      omega
  rw [if_neg c2] at h
  by_cases c3 : s.opcode &&& 0xF000 = 0x3000
  · rw [if_pos c3] at h
    split at h <;> (injection h with h; subst h; exact ⟨fun hm _ => hm, fun _ hsp => hsp⟩)
  rw [if_neg c3] at h
  by_cases c4 : s.opcode &&& 0xF000 = 0x4000
  · rw [if_pos c4] at h
    split at h <;> (injection h with h; subst h; exact ⟨fun hm _ => hm, fun _ hsp => hsp⟩)
  rw [if_neg c4] at h
  by_cases c6 : s.opcode &&& 0xF000 = 0x6000
  · rw [if_pos c6] at h
    injection h with h; subst h
    exact ⟨fun hm _ => hm, fun _ hsp => hsp⟩
  rw [if_neg c6] at h
  by_cases c7 : s.opcode &&& 0xF000 = 0x7000
  · rw [if_pos c7] at h
    injection h with h; subst h
    exact ⟨fun hm _ => hm, fun _ hsp => hsp⟩
  rw [if_neg c7] at h
  by_cases c8 : s.opcode &&& 0xF000 = 0x8000
  · rw [if_pos c8] at h
    by_cases c80 : s.opcode &&& 0x000F = 0x0000
    · rw [if_pos c80] at h
      injection h with h; subst h
      exact ⟨fun hm _ => hm, fun _ hsp => hsp⟩
    rw [if_neg c80] at h
    by_cases c81 : s.opcode &&& 0x000F = 0x0001
    · rw [if_pos c81] at h
      injection h with h; subst h
      exact ⟨fun hm _ => hm, fun _ hsp => hsp⟩
    rw [if_neg c81] at h
    by_cases c82 : s.opcode &&& 0x000F = 0x0002
    · rw [if_pos c82] at h
      injection h with h; subst h
      exact ⟨fun hm _ => hm, fun _ hsp => hsp⟩
    rw [if_neg c82] at h
    by_cases c83 : s.opcode &&& 0x000F = 0x0003
    · rw [if_pos c83] at h
      injection h with h; subst h
      exact ⟨fun hm _ => hm, fun _ hsp => hsp⟩
    rw [if_neg c83] at h
    by_cases c84 : s.opcode &&& 0x000F = 0x0004
    · rw [if_pos c84] at h
      injection h with h; subst h
      exact ⟨fun hm _ => hm, fun _ hsp => hsp⟩
    rw [if_neg c84] at h
    by_cases c85 : s.opcode &&& 0x000F = 0x0005
    · rw [if_pos c85] at h
      injection h with h; subst h
      exact ⟨fun hm _ => hm, fun _ hsp => hsp⟩
    rw [if_neg c85] at h
    by_cases c86 : s.opcode &&& 0x000F = 0x0006
    · rw [if_pos c86] at h
      injection h with h; subst h
      exact ⟨fun hm _ => hm, fun _ hsp => hsp⟩
    rw [if_neg c86] at h
    by_cases c87 : s.opcode &&& 0x000F = 0x0007
    · rw [if_pos c87] at h
      exact Except.noConfusion h
    rw [if_neg c87] at h
    exact Except.noConfusion h
  rw [if_neg c8] at h
  by_cases c9 : s.opcode &&& 0xF000 = 0x9000
  · rw [if_pos c9] at h
    split at h <;> (injection h with h; subst h; exact ⟨fun hm _ => hm, fun _ hsp => hsp⟩)
  rw [if_neg c9] at h
  by_cases cA : s.opcode &&& 0xF000 = 0xA000
  · rw [if_pos cA] at h
    injection h with h; subst h
    exact ⟨fun hm _ => hm, fun _ hsp => hsp⟩
  rw [if_neg cA] at h
  by_cases cC : s.opcode &&& 0xF000 = 0xC000
  · rw [if_pos cC] at h
    injection h with h; subst h
    exact ⟨fun hm _ => hm, fun _ hsp => hsp⟩
  rw [if_neg cC] at h
  by_cases cD : s.opcode &&& 0xF000 = 0xD000
  · rw [if_pos cD] at h
    split at h
    · exact Except.noConfusion h
    · injection h with h; subst h
      exact ⟨fun hm _ => hm, fun _ hsp => hsp⟩
  rw [if_neg cD] at h
  by_cases cE : s.opcode &&& 0xF000 = 0xE000
  · rw [if_pos cE] at h
    by_cases cE9 : s.opcode &&& 0x00FF = 0x009e
    · rw [if_pos cE9] at h
      split at h <;> (injection h with h; subst h; exact ⟨fun hm _ => hm, fun _ hsp => hsp⟩)
    rw [if_neg cE9] at h
    by_cases cEA : s.opcode &&& 0x00FF = 0x00a1
    · rw [if_pos cEA] at h
      split at h <;> (injection h with h; subst h; exact ⟨fun hm _ => hm, fun _ hsp => hsp⟩)
    rw [if_neg cEA] at h
    exact Except.noConfusion h
  rw [if_neg cE] at h
  by_cases cF : s.opcode &&& 0xF000 = 0xF000
  · rw [if_pos cF] at h
    by_cases cF0A : s.opcode &&& 0x00FF = 0x000A
    · rw [if_pos cF0A] at h
      split at h
      · exact Except.noConfusion h
      · injection h with h; subst h
        exact ⟨fun hm _ => hm, fun _ hsp => hsp⟩
    rw [if_neg cF0A] at h
    by_cases cF1E : s.opcode &&& 0x00FF = 0x001e
    · rw [if_pos cF1E] at h
      injection h with h; subst h
      exact ⟨fun hm _ => hm, fun _ hsp => hsp⟩
    rw [if_neg cF1E] at h
    by_cases cF07 : s.opcode &&& 0x00FF = 0x0007
    · rw [if_pos cF07] at h
      injection h with h; subst h
      exact ⟨fun hm _ => hm, fun _ hsp => hsp⟩
    rw [if_neg cF07] at h
    by_cases cF15 : s.opcode &&& 0x00FF = 0x0015
    · rw [if_pos cF15] at h
      injection h with h; subst h
      exact ⟨fun hm _ => hm, fun _ hsp => hsp⟩
    rw [if_neg cF15] at h
    by_cases cF18 : s.opcode &&& 0x00FF = 0x0018
    · rw [if_pos cF18] at h
      injection h with h; subst h
      exact ⟨fun hm _ => hm, fun _ hsp => hsp⟩
    rw [if_neg cF18] at h
    by_cases cF29 : s.opcode &&& 0x00FF = 0x0029
    · rw [if_pos cF29] at h
      injection h with h; subst h
      exact ⟨fun hm _ => hm, fun _ hsp => hsp⟩
    rw [if_neg cF29] at h
    by_cases cF33 : s.opcode &&& 0x00FF = 0x0033
    · rw [if_pos cF33] at h
      split at h
      · exact Except.noConfusion h
      · rename_i m1 heq1
        split at h
        · exact Except.noConfusion h
        · rename_i m2 heq2
          split at h
          · exact Except.noConfusion h
          · rename_i m3 heq3
            injection h with h; subst h
            refine ⟨fun hm hv => ?_, fun _ hsp => hsp⟩
            have hb := getD_lt s.V ((s.opcode &&& 0x0F00) >>> 8) hv
            show ∀ x ∈ m3, x < 256
            exact writeArr_lt heq3
              (writeArr_lt heq2 (writeArr_lt heq1 hm (by omega)) (by omega)) (by omega)
    rw [if_neg cF33] at h
    by_cases cF55 : s.opcode &&& 0x00FF = 0x0055
    · rw [if_pos cF55] at h
      split at h
      · exact Except.noConfusion h
      · rename_i mem2 heq
        injection h with h; subst h
        refine ⟨fun hm hv => ?_, fun _ hsp => hsp⟩
        show ∀ x ∈ mem2, x < 256
        exact storeV_lt _ _ _ _ _ heq hm hv
    rw [if_neg cF55] at h
    by_cases cF65 : s.opcode &&& 0x00FF = 0x0065
    · rw [if_pos cF65] at h
      split at h
      · exact Except.noConfusion h
      · injection h with h; subst h
        exact ⟨fun hm _ => hm, fun _ hsp => hsp⟩
    rw [if_neg cF65] at h
    exact Except.noConfusion h
  rw [if_neg cF] at h
  exact Except.noConfusion h

/-- Lift of `execute_inv` across the fetch in `emulate_cycle`. -/
theorem emulate_inv (rnd : Nat) (s s2 : CPU) (h : emulate_cycle rnd s = .ok s2) :
    ((∀ x ∈ s.memory, x < 256) → (∀ v ∈ s.V, v < 256) → ∀ x ∈ s2.memory, x < 256) ∧
    (s.stack.length = 16 → s.sp ≤ 16 → s2.sp ≤ 16) := by
  unfold emulate_cycle at h
  split at h
  · exact Except.noConfusion h
  · exact Except.noConfusion h
  · rename_i m1 m2 heq1 heq2
    exact execute_inv rnd { s with opcode := (m1 <<< 8) % 65536 ||| m2 } s2 h

/-- Effect of a 0x2NNN dispatch with room on the stack: the current pc is
pushed, the stack pointer incremented, and control jumps to NNN. -/
theorem execute_call (rnd : Nat) (s : CPU)
    (hop : s.opcode &&& 0xF000 = 0x2000) (hsp : s.sp < s.stack.length) :
    execute rnd s = .ok { s with stack := s.stack.set s.sp s.pc,
                                 sp := (s.sp + 1) % 256,
                                 pc := s.opcode &&& 0x0FFF } := by
  unfold execute
  have c0 : ¬ (s.opcode &&& 0xF000 = 0x0000) := by omega
  have c1 : ¬ (s.opcode &&& 0xF000 = 0x1000) := by omega
  rw [if_neg c0, if_neg c1, if_pos hop, writeArr_of_lt s.pc hsp]

/-- Effect of a 0x00EE dispatch with a nonempty stack: the stack pointer
is decremented and pc becomes the popped entry plus 2. -/
theorem execute_ret (rnd : Nat) (s : CPU) (hop : s.opcode = 0x00EE)
    (hsp : (s.sp + 255) % 256 < s.stack.length) :
    execute rnd s = .ok { s with sp := (s.sp + 255) % 256,
                                 pc := (s.stack.getD ((s.sp + 255) % 256) 0 + 2) % 65536 } := by
  unfold execute
  rw [hop,
    if_pos (by decide : (0x00EE : Nat) &&& 0xF000 = 0x0000),
    if_neg (by decide : ¬ ((0x00EE : Nat) &&& 0x00FF = 0x00E0)),
    if_pos (by decide : (0x00EE : Nat) &&& 0x00FF = 0x00EE),
    readArr_of_lt hsp]

/-- A successful fetch turns `emulate_cycle` into `execute` on the state
holding the big-endian concatenation of the two instruction bytes. -/
theorem emulate_cycle_fetch (rnd : Nat) (s : CPU) {m1 m2 : Nat}
    (h1 : readArr s.memory s.pc = .ok m1)
    (h2 : readArr s.memory ((s.pc + 1) % 65536) = .ok m2) :
    emulate_cycle rnd s = execute rnd { s with opcode := (m1 <<< 8) % 65536 ||| m2 } := by
  unfold emulate_cycle
  rw [h1, h2]


/-! ### Claims -/

/-- C1: contrary to the claim, the 8XY1 and 8XY3 handlers combine the raw
nibble indices X and Y instead of the register values.  With opcode
0x8121 and V1 = 12, V2 = 10, the stored value is 1 OR 2 = 3 (the value
semantics would give 12 OR 10 = 14); with opcode 0x8343 and
V3 = V4 = 5, the stored value is 3 XOR 4 = 7 (the value semantics would
give 5 XOR 5 = 0). -/
theorem C1_or_xor_use_nibble_indices :
    ((emulate_cycle 0 { baseCPU with memory := [0x81, 0x21], V := ((List.replicate 16 0).set 1 12).set 2 10 }).map (fun s => s.V.getD 1 0) = .ok 3 ∧ (12 ||| 10) = 14) ∧
    ((emulate_cycle 0 { baseCPU with memory := [0x83, 0x43], V := ((List.replicate 16 0).set 3 5).set 4 5 }).map (fun s => s.V.getD 3 0) = .ok 7 ∧ (5 ^^^ 5) = 0) := by
  decide

/-- C2: contrary to the claim, the EX9E/EXA1 handlers compare the opcode
nibble X with the key latch, not the value of V[X].  With opcode 0xE19E,
k = 1 and V1 = 5, the instruction skips (PC goes 0 to 4) even though
V1 = 5 differs from k = 1; with opcode 0xE1A1 under the same state it
does not skip (PC goes 0 to 2) even though V1 differs from k. -/
theorem C2_key_skip_compares_nibble :
    ((emulate_cycle 0 { baseCPU with memory := [0xE1, 0x9E], k := 1, V := (List.replicate 16 0).set 1 5 }).map (fun s => s.pc) = .ok 4 ∧ (5 : Nat) ≠ 1) ∧
    (emulate_cycle 0 { baseCPU with memory := [0xE1, 0xA1], k := 1, V := (List.replicate 16 0).set 1 5 }).map (fun s => s.pc) = .ok 2 := by
  decide

/-- C3: contrary to the claim, the 8XY6 handler shifts the source register
V[Y] LEFT by one and never writes VF.  With opcode 0x8126 and V2 = 3 the
result is V1 = 6 and VF = 0, while either documented variant requires
V1 = 3 >> 1 = 1 and VF = 3 AND 1 = 1. -/
theorem C3_shift_right_is_left_and_vf_untouched :
    (emulate_cycle 0 { baseCPU with memory := [0x81, 0x26], V := (List.replicate 16 0).set 2 3 }).map (fun s => (s.V.getD 1 0, s.V.getD 15 0)) = .ok (6, 0) ∧
    (3 >>> 1) = 1 ∧ (3 &&& 1) = 1 := by
  decide

/-- C4: contrary to the claim, the FX29 handler sets I to 0x50 + V[X]
without the 5-bytes-per-glyph scaling.  With opcode 0xF129 and V1 = 2 the
code yields I = 0x52 = 82, whereas font_base + V[X] * 5 = 0x5A = 90; the
font table itself (copied at 0x50 by `initCPU`) is 5 bytes per glyph, so
glyph 2 starts at offset 10 of `chip8_fontset`. -/
theorem C4_fx29_missing_glyph_scaling :
    (emulate_cycle 0 { baseCPU with memory := [0xF1, 0x29], V := (List.replicate 16 0).set 1 2 }).map (fun s => s.I) = .ok 82 ∧
    0x50 + 2 * 5 = 90 ∧ (82 : Nat) ≠ 90 ∧ chip8_fontset.getD (2 * 5) 0 = 0xF0 := by
  decide

set_option maxRecDepth 4096 in
/-- C5: contrary to the claim, the DXYN handler applies no wraparound at
the display width.  Drawing the row byte 0xFF at x = 60, y = 0 on the
2048-cell 64-by-32 buffer sets cells 64 and 67 (pixels (0,1) and (3,1),
on the next row) and leaves cells 0 and 3 (the wrapped pixels (0,0) and
(3,0) that the claim requires) clear. -/
theorem C5_draw_has_no_wraparound :
    (emulate_cycle 0 { baseCPU with memory := [0xD0, 0x11, 0xFF], I := 2, gfx := List.replicate 2048 0, V := (List.replicate 16 0).set 0 60 }).map (fun s => (s.gfx.getD 64 0, s.gfx.getD 0 0, s.gfx.getD 67 0, s.gfx.getD 3 0)) = .ok (1, 0, 1, 0) := by
  decide

set_option maxRecDepth 8192 in
/-- C6: sixteen nested 0x2NNN calls from a state with sp = 0 fill the
16-entry stack (sp = 16); the seventeenth call fails with the
out-of-bounds stack write (no entry is overwritten, no state is
produced); and a single cycle never takes the stack pointer of a
16-entry-stack machine beyond 16. -/
theorem C6_seventeenth_call_overflows :
    (∀ rnd s s2, s.stack.length = 16 → s.sp ≤ 16 → emulate_cycle rnd s = .ok s2 → s2.sp ≤ 16) ∧
    (iterate 0 { baseCPU with memory := [0x20, 0x00] } 16).map (fun s => s.sp) = .ok 16 ∧
    iterate 0 { baseCPU with memory := [0x20, 0x00] } 17 = .error .oob :=
  ⟨fun rnd s s2 hlen hsp h => (emulate_inv rnd s s2 h).2 hlen hsp,
   by decide, by decide⟩

/-- Witness for C6: the stack-pointer bound applied to one concrete call
step. -/
theorem C6_seventeenth_call_overflows_witness :
    ({ baseCPU with memory := [0x20, 0x00] } : CPU).stack.length = 16 ∧
    ({ baseCPU with memory := [0x20, 0x00] } : CPU).sp ≤ 16 ∧
    emulate_cycle 0 { baseCPU with memory := [0x20, 0x00] } = .ok { baseCPU with memory := [0x20, 0x00], opcode := 0x2000, stack := (List.replicate 16 0).set 0 0, sp := 1, pc := 0 } ∧
    ({ baseCPU with memory := [0x20, 0x00], opcode := 0x2000, stack := (List.replicate 16 0).set 0 0, sp := 1, pc := 0 } : CPU).sp ≤ 16 :=
  ⟨by decide, by decide, by decide,
   C6_seventeenth_call_overflows.1 0 { baseCPU with memory := [0x20, 0x00] } { baseCPU with memory := [0x20, 0x00], opcode := 0x2000, stack := (List.replicate 16 0).set 0 0, sp := 1, pc := 0 } (by decide) (by decide) (by decide)⟩

/-- C7: contrary to the claim, `emulate_cycle` does not terminate on
0xFX0A when the key latch holds the no-key sentinel 0xff: the handler is
`while self.k == 0xff` with a body that never changes `k`, modelled by
the `hang` outcome.  When a key is latched (k = 5) the step terminates,
stores the key in V[X] and advances PC by 2. -/
theorem C7_fx0a_spins_on_no_key :
    emulate_cycle 0 { baseCPU with memory := [0xF0, 0x0A] } = .error .hang ∧
    (emulate_cycle 0 { baseCPU with memory := [0xF0, 0x0A], k := 5 }).map (fun s => (s.V.getD 0 0, s.pc)) = .ok (5, 2) := by
  decide

/-- C8: from any state with stack pointer below capacity whose fetch
yields a 0x2NNN opcode, one cycle pushes the call-site address and jumps;
from any later state that still holds that frame one slot below its
stack pointer and whose fetch yields 0x00EE, one cycle sets PC to exactly
the call site plus 2 and restores the pre-call stack pointer. -/
theorem C8_call_then_return (rnd rnd2 : Nat) (s t : CPU) (m1 m2 w1 w2 : Nat)
    (hs : s.stack.length = 16) (hsp : s.sp < 16)
    (hf1 : readArr s.memory s.pc = .ok m1)
    (hf2 : readArr s.memory ((s.pc + 1) % 65536) = .ok m2)
    (hop : ((m1 <<< 8) % 65536 ||| m2) &&& 0xF000 = 0x2000)
    (hpc2 : s.pc + 2 < 65536)
    (ht : t.stack.length = 16) (htsp : t.sp = s.sp + 1)
    (hg1 : readArr t.memory t.pc = .ok w1)
    (hg2 : readArr t.memory ((t.pc + 1) % 65536) = .ok w2)
    (hw : (w1 <<< 8) % 65536 ||| w2 = 0x00EE)
    (hframe : t.stack.getD s.sp 0 = s.pc) :
    (∃ s1, emulate_cycle rnd s = .ok s1 ∧ s1.sp = s.sp + 1 ∧
        s1.stack.getD s.sp 0 = s.pc ∧
        s1.pc = ((m1 <<< 8) % 65536 ||| m2) &&& 0x0FFF) ∧
    (∃ t1, emulate_cycle rnd2 t = .ok t1 ∧ t1.pc = s.pc + 2 ∧ t1.sp = s.sp) := by
  constructor
  · rw [emulate_cycle_fetch rnd s hf1 hf2,
      execute_call rnd { s with opcode := (m1 <<< 8) % 65536 ||| m2 } hop
        (by show s.sp < s.stack.length; omega)]
    refine ⟨_, rfl, ?_, ?_, rfl⟩
    · show (s.sp + 1) % 256 = s.sp + 1
      omega
    · show (s.stack.set s.sp s.pc).getD s.sp 0 = s.pc
      exact getD_set_self _ _ _ (by omega)
  · rw [emulate_cycle_fetch rnd2 t hg1 hg2, hw,
      execute_ret rnd2 { t with opcode := 0x00EE } rfl
        (by show (t.sp + 255) % 256 < t.stack.length; omega)]
    refine ⟨_, rfl, ?_, ?_⟩
    · show (t.stack.getD ((t.sp + 255) % 256) 0 + 2) % 65536 = s.pc + 2
      have he : (t.sp + 255) % 256 = s.sp := by omega
      rw [he, hframe]
      exact Nat.mod_eq_of_lt hpc2
    · show (t.sp + 255) % 256 = s.sp
      omega

/-- Witness for C8: a concrete call at address 0 (opcode 0x2200) and a
concrete matching return state. -/
theorem C8_call_then_return_witness :
    (∃ s1, emulate_cycle 0 { baseCPU with memory := [0x22, 0x00] } = .ok s1 ∧ s1.sp = 0 + 1 ∧ s1.stack.getD 0 0 = 0 ∧ s1.pc = ((0x22 <<< 8) % 65536 ||| 0x00) &&& 0x0FFF) ∧
    (∃ t1, emulate_cycle 0 { baseCPU with memory := [0x00, 0xEE], sp := 1 } = .ok t1 ∧ t1.pc = 0 + 2 ∧ t1.sp = 0) :=
  C8_call_then_return 0 0 { baseCPU with memory := [0x22, 0x00] }
    { baseCPU with memory := [0x00, 0xEE], sp := 1 } 0x22 0x00 0x00 0xEE
    (by decide) (by decide) (by decide) (by decide) (by decide) (by decide)
    (by decide) (by decide) (by decide) (by decide) (by decide) (by decide)

/-- C9: contrary to the claim, the dispatch has no 0x5000 arm, so a
0x5XY0 word (here 0x5120 with V1 = V2 = 7, which per the claim should
skip) falls through to the undetermined-opcode exit. -/
theorem C9_5xy0_is_unsupported :
    emulate_cycle 0 { baseCPU with memory := [0x51, 0x20], V := ((List.replicate 16 0).set 1 7).set 2 7 } = .error .procExit := by
  decide

/-- C10: after initialization from a byte buffer every memory cell is
below 256, and one `emulate_cycle` step preserves this byte-range
invariant of memory (the register-file bound in the hypothesis mirrors
the Rust `u8` type of `V`). -/
theorem C10_memory_cells_are_bytes :
    (∀ buffer gfx, (∀ b ∈ buffer, b < 256) → ∀ x ∈ (initCPU buffer gfx).memory, x < 256) ∧
    (∀ rnd s s2, (∀ x ∈ s.memory, x < 256) → (∀ v ∈ s.V, v < 256) →
        emulate_cycle rnd s = .ok s2 → ∀ x ∈ s2.memory, x < 256) :=
  ⟨initCPU_mem_lt,
   fun rnd s s2 hm hv h => (emulate_inv rnd s s2 h).1 hm hv⟩

/-- Witness for C10: initialization from the one-byte program [0xAB], and
one concrete 00E0 step from a byte-ranged state. -/
theorem C10_memory_cells_are_bytes_witness :
    (∀ b ∈ ([0xAB] : List Nat), b < 256) ∧
    (∀ x ∈ (initCPU [0xAB] []).memory, x < 256) ∧
    (emulate_cycle 0 { baseCPU with memory := [0x00, 0xE0] } = .ok { baseCPU with memory := [0x00, 0xE0], opcode := 0x00E0, pc := 2 }) ∧
    (∀ x ∈ ({ baseCPU with memory := [0x00, 0xE0], opcode := 0x00E0, pc := 2 } : CPU).memory, x < 256) :=
  ⟨by decide,
   C10_memory_cells_are_bytes.1 [0xAB] [] (by decide),
   by decide,
   C10_memory_cells_are_bytes.2 0 { baseCPU with memory := [0x00, 0xE0] } { baseCPU with memory := [0x00, 0xE0], opcode := 0x00E0, pc := 2 } (by decide) (by decide) (by decide)⟩

end RustyChip8
